import Mathlib

/-
Verification of the event-management backend (event_api): data model,
registration, event creation, role-gated permissions and the ticket
purchase allocator, embedded shallowly from the Django source
(models.py, serializers.py, permissions.py, views.py).

Database rows become Lean structures; the mutable store becomes an
explicit `DB` value threaded through the operations; Django's
`transaction.atomic` becomes the discipline that an operation either
returns a whole new store (commit) or an error with the old store kept
(rollback); `serializers.ValidationError` and the other failure modes
become `Except` errors.
-/

namespace EventApi

/-- A raw JSON field value as received by a DRF serializer: an integer,
a string, an explicit null, or the field being absent from the payload. -/
inductive JsonVal
  | jInt (n : Int)
  | jStr (s : String)
  | jNull
  | missing
deriving DecidableEq, Repr

/-- Value of a non-empty all-digit character list, read in base 10. -/
def decDigits : List Char → Option Nat
  | [] => none
  | cs =>
    if cs.all Char.isDigit then
      some (cs.foldl (fun n c => n * 10 + (c.toNat - 48)) 0)
    else none

/-- Python `int(...)` on a string, as DRF IntegerField applies it: an
optional leading minus sign followed by at least one decimal digit. -/
def strToInt : List Char → Option Int
  | [] => none
  | c :: cs =>
    if c = '-' then (decDigits cs).map (fun n => -(n : Int))
    else (decDigits (c :: cs)).map (fun n => (n : Int))

/-- DRF `IntegerField.to_internal_value`: integers pass through, strings
are accepted when they parse as an integer, null and a missing required
field are rejected. -/
def parseIntField : JsonVal → Except String Int
  | .jInt n => .ok n
  | .jStr s =>
      match strToInt s.data with
      | some n => .ok n
      | none => .error "A valid integer is required."
  | .jNull => .error "This field may not be null."
  | .missing => .error "This field is required."

/-- models.py `User`: username (unique), role (CharField with choices
Admin/User, default User), active flag. The password hash is outside the
claims and omitted. -/
structure UserRec where
  username : String
  role : String
  isActive : Bool
deriving DecidableEq, Repr

/-- models.py `Event`: name, date, `total_tickets` (plain IntegerField,
no validators), `tickets_sold` (IntegerField, default 0). -/
structure Event where
  id : Nat
  name : String
  date : String
  totalTickets : Int
  ticketsSold : Int
deriving DecidableEq, Repr

/-- models.py `Ticket`: purchasing user, event, quantity. The
auto-now timestamp is outside the claims and omitted. -/
structure Ticket where
  userId : Nat
  eventId : Nat
  quantity : Int
deriving DecidableEq, Repr

/-- The persistent store: user accounts, events, and the append-only
ticket ledger. -/
structure DB where
  users : List UserRec
  events : List Event
  tickets : List Ticket
deriving DecidableEq, Repr

/-- `Event.objects.get(id=eid)` as a partial lookup. -/
def findEvent (db : DB) (eid : Nat) : Option Event :=
  db.events.find? (fun e => e.id == eid)

/-- `event.save(update_fields=[...])`: write the row with this id back. -/
def saveEvent (db : DB) (ev : Event) : DB :=
  { db with events := db.events.map (fun e => if e.id == ev.id then ev else e) }

/-- The failure modes of the purchase endpoint
(views.py `TicketPurchaseAPIView.create` plus
serializers.py `TicketPurchaseSerializer`). -/
inductive PurchaseError
  | eventNotFound
  | invalidQuantity
  | insufficientCapacity (remaining : Int)
deriving DecidableEq, Repr

/-- The purchase flow, serializers.py lines 109-174 driven by views.py
lines 204-232: resolve the event (404 when absent), DRF validates
`quantity >= 1` (IntegerField min_value=1), `validate` checks
`tickets_sold + quantity > total_tickets` and reports
`total_tickets - tickets_sold` tickets left, then `create` re-reads the
event inside `transaction.atomic`, re-checks capacity, adds `quantity`
to `tickets_sold` TWICE (lines 170 and 171 of the source both read
`event.tickets_sold += quantity`), saves, and appends a Ticket. -/
def purchase (db : DB) (uid : Nat) (eid : Nat) (q : Int) :
    Except PurchaseError (DB × Ticket) :=
  match findEvent db eid with
  | none => .error .eventNotFound
  | some ev =>
    if q < 1 then .error .invalidQuantity
    else if ev.ticketsSold + q > ev.totalTickets then
      .error (.insufficientCapacity (ev.totalTickets - ev.ticketsSold))
    else
      match findEvent db eid with
      | none => .error .eventNotFound
      | some ev2 =>
        if ev2.ticketsSold + q > ev2.totalTickets then
          .error (.insufficientCapacity (ev2.totalTickets - ev2.ticketsSold))
        else
          let sold1 := ev2.ticketsSold + q
          let sold2 := sold1 + q
          let ev3 := { ev2 with ticketsSold := sold2 }
          let db2 := saveEvent db ev3
          let t : Ticket := { userId := uid, eventId := eid, quantity := q }
          .ok ({ db2 with tickets := db2.tickets ++ [t] }, t)

/-- The endpoint as the caller observes it: the store after the call and
the outcome. `transaction.atomic` rolls back every write on an
exception, so an error leaves the pre-call store. -/
def purchaseEndpoint (db : DB) (uid eid : Nat) (q : Int) :
    DB × Except PurchaseError Ticket :=
  match purchase db uid eid q with
  | .ok r => (r.1, .ok r.2)
  | .error e => (db, .error e)

/-- Failure mode of event creation. -/
inductive CreateError
  | invalidInput
deriving DecidableEq, Repr

/-- views.py `EventAPIView.create` with serializers.py `EventSerializer`
(ModelSerializer over Event with fields = all): `total_tickets` is a
required IntegerField with NO further validators, and `tickets_sold` is
also exposed, optional with the model default 0 — a supplied value is
written as given. -/
def createEvent (db : DB) (name date : String) (totalRaw soldRaw : JsonVal) :
    Except CreateError (DB × Event) :=
  match parseIntField totalRaw with
  | .error _ => .error .invalidInput
  | .ok tot =>
    match soldRaw with
    | .missing =>
        let ev : Event := { id := db.events.length + 1, name := name,
                            date := date, totalTickets := tot, ticketsSold := 0 }
        .ok ({ db with events := db.events ++ [ev] }, ev)
    | v =>
      match parseIntField v with
      | .error _ => .error .invalidInput
      | .ok sold =>
        let ev : Event := { id := db.events.length + 1, name := name,
                            date := date, totalTickets := tot, ticketsSold := sold }
        .ok ({ db with events := db.events ++ [ev] }, ev)

/-- Failure modes of registration (views.py `RegisterView.create`). -/
inductive RegisterError
  | invalidInput
  | duplicateUsername
deriving DecidableEq, Repr

/-- models.py `User.ROLE_CHOICES`. -/
def roleChoices : List String := ["Admin", "User"]

/-- models.py `UserManager.create_user`: rejects an empty username,
stores the given role; the DB unique constraint on username surfaces as
IntegrityError (DuplicateUsername). -/
def createUser (db : DB) (username role : String) :
    Except RegisterError (DB × UserRec) :=
  if username = "" then .error .invalidInput
  else if db.users.any (fun u => u.username == username) then
    .error .duplicateUsername
  else
    let u : UserRec := { username := username, role := role, isActive := true }
    .ok ({ db with users := db.users ++ [u] }, u)

/-- serializers.py `UserRegisterSerializer.create`: the role choice field
is validated against ROLE_CHOICES when present, and the user is created
with `validated_data.get('role', 'User')`. -/
def registerUser (db : DB) (username : String) (roleField : Option String) :
    Except RegisterError (DB × UserRec) :=
  match roleField with
  | some r =>
      if roleChoices.contains r then createUser db username r
      else .error .invalidInput
  | none => createUser db username "User"

/-- The requesting principal as DRF permissions see it:
`request.user.is_authenticated` and `request.user.role`. -/
structure ReqUser where
  isAuthenticated : Bool
  role : String
deriving DecidableEq, Repr

/-- permissions.py `IsAdminUser.has_permission`: POST requires an
authenticated Admin; other methods only require authentication. -/
def isAdminUserPerm (method : String) (u : ReqUser) : Bool :=
  if method == "POST" then u.isAuthenticated && u.role == "Admin"
  else u.isAuthenticated

/-- permissions.py `IsRegularUser.has_permission`: an authenticated
account whose role is exactly "User". -/
def isRegularUserPerm (u : ReqUser) : Bool :=
  u.isAuthenticated && u.role == "User"

/-- DRF `IsAuthenticated`. -/
def isAuthenticatedPerm (u : ReqUser) : Bool :=
  u.isAuthenticated

/-- DRF `AllowAny`. -/
def allowAnyPerm (_u : ReqUser) : Bool :=
  true

/-- views.py `EventAPIView.permission_classes = [IsAuthenticated,
IsAdminUser]` on the POST that creates an event. -/
def canCreateEvent (u : ReqUser) : Bool :=
  isAuthenticatedPerm u && isAdminUserPerm "POST" u

/-- views.py `TicketPurchaseAPIView.permission_classes =
[IsAuthenticated, IsRegularUser]`. -/
def canPurchase (u : ReqUser) : Bool :=
  isAuthenticatedPerm u && isRegularUserPerm u

/-- views.py `RegisterView.permission_classes = [AllowAny]`. -/
def canRegister (u : ReqUser) : Bool :=
  allowAnyPerm u

/-- The spec invariant for one event: 0 <= tickets_sold <= total_tickets. -/
def eventInvariant (e : Event) : Prop :=
  0 ≤ e.ticketsSold ∧ e.ticketsSold ≤ e.totalTickets

instance (e : Event) : Decidable (eventInvariant e) := by
  unfold eventInvariant; infer_instance

/-- Sum of the quantities of the committed tickets of one event. -/
def ledgerSum (db : DB) (eid : Nat) : Int :=
  (db.tickets.filter (fun t => t.eventId == eid)).foldl
    (fun a t => a + t.quantity) 0

/-- The spec conservation property for one event: tickets_sold equals the
sum of the quantities of its committed tickets. -/
def conservation (db : DB) (eid : Nat) : Prop :=
  ∀ ev, findEvent db eid = some ev → ev.ticketsSold = ledgerSum db eid

/-- Run a batch of purchase requests against one event in sequence (one
legal schedule of N concurrent callers), returning the final store, the
number of successes and the number of failures. -/
def runPurchases (uid eid : Nat) : DB → List Int → DB × Nat × Nat
  | db, [] => (db, 0, 0)
  | db, q :: qs =>
    match purchase db uid eid q with
    | .ok r =>
        let rest := runPurchases uid eid r.1 qs
        (rest.1, rest.2.1 + 1, rest.2.2)
    | .error _ =>
        let rest := runPurchases uid eid db qs
        (rest.1, rest.2.1, rest.2.2 + 1)

/-! Concrete stores used to evaluate the operations. -/

/-- An empty store. -/
def dbEmpty : DB := { users := [], events := [], tickets := [] }

/-- A fresh event with capacity 10 and nothing sold. -/
def evTen : Event :=
  { id := 1, name := "E", date := "2025-01-01", totalTickets := 10, ticketsSold := 0 }

/-- Store holding only `evTen`. -/
def dbTen : DB := { users := [], events := [evTen], tickets := [] }

/-- A fresh event with capacity 5 and nothing sold. -/
def evFive : Event :=
  { id := 1, name := "E", date := "2025-01-01", totalTickets := 5, ticketsSold := 0 }

/-- Store holding only `evFive`. -/
def dbFive : DB := { users := [], events := [evFive], tickets := [] }

/-- `evFive` after the code has processed a successful quantity-3 purchase:
the counter lands on 6, not 3. -/
def evFiveAfter : Event :=
  { id := 1, name := "E", date := "2025-01-01", totalTickets := 5, ticketsSold := 6 }

/-- The ticket committed by that purchase. -/
def tThree : Ticket := { userId := 7, eventId := 1, quantity := 3 }

/-- Store after `purchase dbFive 7 1 3`. -/
def dbFiveAfter : DB := { users := [], events := [evFiveAfter], tickets := [tThree] }

/-- `evFive` after a successful quantity-1 purchase: the counter lands on 2. -/
def evConsAfter : Event :=
  { id := 1, name := "E", date := "2025-01-01", totalTickets := 5, ticketsSold := 2 }

/-- The quantity-1 ticket committed by that purchase. -/
def tOne : Ticket := { userId := 7, eventId := 1, quantity := 1 }

/-- Store after `purchase dbFive 7 1 1`. -/
def dbConsAfter : DB := { users := [], events := [evConsAfter], tickets := [tOne] }

/-- A fresh event with capacity 2 and nothing sold. -/
def evTwo : Event :=
  { id := 1, name := "E", date := "2025-01-01", totalTickets := 2, ticketsSold := 0 }

/-- Store holding only `evTwo`. -/
def dbTwo : DB := { users := [], events := [evTwo], tickets := [] }

/-- C1: FALSE of the code. A successful `purchase` of quantity 3 against a
fresh capacity-10 event leaves `tickets_sold = 6`, not the single-increment
value `0 + 3`: serializers.py lines 170-171 add the quantity twice before
saving. -/
theorem purchase_double_increment_bug :
  (purchase dbTen 7 1 3).toOption.map (fun r => (findEvent r.1 1).map Event.ticketsSold)
    = some (some 6) ∧ (6 : Int) ≠ 0 + 3 := by
  refine ⟨by rfl, by decide⟩

/-- C2: FALSE of the code. A fresh capacity-5 event satisfies
`0 ≤ tickets_sold ≤ total_tickets`; a single successful purchase of
quantity 3 (which passes both capacity checks, since 0 + 3 ≤ 5) drives
`tickets_sold` to 6 > 5, breaking the invariant. -/
theorem purchase_breaks_capacity_invariant :
  eventInvariant evFive ∧
  purchase dbFive 7 1 3 = .ok (dbFiveAfter, tThree) ∧
  ¬ eventInvariant evFiveAfter := by
  refine ⟨by decide, by rfl, by decide⟩

/-- C3: FALSE of the code. After one successful quantity-1 purchase against
a fresh event, `tickets_sold = 2` while the ledger holds a single ticket of
quantity 1, so `tickets_sold` is twice the ledger sum. -/
theorem purchase_breaks_conservation :
  purchase dbFive 7 1 1 = .ok (dbConsAfter, tOne) ∧
  ¬ conservation dbConsAfter 1 := by
  refine ⟨by rfl, fun h => ?_⟩
  have h2 := h evConsAfter (by rfl)
  exact absurd h2 (by decide)

/-- C4: FALSE of the code. Two quantity-1 purchases against a capacity-2
event, run in sequence (one legal schedule of two concurrent callers),
yield 1 success and 1 failure: the first success double-increments the
counter to 2 and exhausts the capacity. The claim demands
`min(N, T) = min 2 2 = 2` successes. -/
theorem two_unit_purchases_one_success :
  (runPurchases 7 1 dbTwo [1, 1]).2.1 = 1 ∧
  (runPurchases 7 1 dbTwo [1, 1]).2.2 = 1 ∧
  (1 : Nat) ≠ min 2 2 := by
  refine ⟨by rfl, by rfl, by decide⟩

/-- C5: whenever the event exists, the quantity is at least 1, and
`tickets_sold + quantity > total_tickets`, the purchase fails with
InsufficientCapacity carrying exactly `total_tickets - tickets_sold`
(the serializer's message reports that many tickets left). -/
theorem purchase_insufficient_reports_remaining (db : DB) (uid eid : Nat)
    (ev : Event) (q : Int) (hev : findEvent db eid = some ev) (hq : 1 ≤ q)
    (hcap : ev.totalTickets < ev.ticketsSold + q) :
    purchase db uid eid q =
      .error (.insufficientCapacity (ev.totalTickets - ev.ticketsSold)) := by
  simp only [purchase, hev]
  rw [if_neg (not_lt.mpr hq), if_pos hcap]

/-- An event of capacity 5 with 3 already sold. -/
def evRem : Event :=
  { id := 1, name := "E", date := "2025-01-01", totalTickets := 5, ticketsSold := 3 }

/-- Store holding only `evRem`. -/
def dbRem : DB := { users := [], events := [evRem], tickets := [] }

/-- C5 witness: requesting 4 tickets when 2 remain fails reporting 2. -/
theorem purchase_insufficient_reports_remaining_witness :
  purchase dbRem 7 1 4 = .error (.insufficientCapacity 2) :=
  purchase_insufficient_reports_remaining dbRem 7 1 evRem 4 (by rfl)
    (by decide) (by decide)

/-- C6: any failing purchase call leaves the store (the events with their
counters and the ticket ledger) exactly as before the call: every error is
raised before any write, and `transaction.atomic` discards the writes of
an aborted unit of work. -/
theorem failed_purchase_leaves_store_unchanged (db : DB) (uid eid : Nat)
    (q : Int) (e : PurchaseError)
    (hfail : (purchaseEndpoint db uid eid q).2 = .error e) :
    (purchaseEndpoint db uid eid q).1 = db := by
  cases hp : purchase db uid eid q with
  | ok r =>
      unfold purchaseEndpoint at hfail
      rw [hp] at hfail
      exact absurd hfail (by simp)
  | error e2 =>
      unfold purchaseEndpoint
      rw [hp]

/-- C6 witness: a purchase against an absent event fails and leaves the
empty store untouched. -/
theorem failed_purchase_leaves_store_unchanged_witness :
  (purchaseEndpoint dbEmpty 1 99 1).1 = dbEmpty :=
  failed_purchase_leaves_store_unchanged dbEmpty 1 99 1 .eventNotFound (by rfl)

/-- The event a caller obtains by supplying `tickets_sold = 5` at creation. -/
def evSupplied : Event :=
  { id := 1, name := "E", date := "2025-01-01", totalTickets := 10, ticketsSold := 5 }

/-- C7 counterexample: `EventSerializer` exposes every model field, so a
creation request that supplies `tickets_sold = 5` succeeds and the stored
event starts with `tickets_sold = 5`, not 0. -/
theorem createEvent_honors_supplied_sold :
  createEvent dbEmpty "E" "2025-01-01" (.jInt 10) (.jInt 5) =
    .ok ({ dbEmpty with events := [evSupplied] }, evSupplied) ∧
  evSupplied.ticketsSold ≠ 0 := by
  refine ⟨by rfl, by decide⟩

/-- C7 amended: when the creation request does not supply a
`tickets_sold` field, the model default applies and the created event has
`tickets_sold = 0`. -/
theorem createEvent_default_sold_zero (db : DB) (name date : String)
    (totalRaw : JsonVal) (tot : Int) (h : parseIntField totalRaw = .ok tot) :
    ∃ db2 ev, createEvent db name date totalRaw .missing = .ok (db2, ev) ∧
      ev.ticketsSold = 0 := by
  unfold createEvent
  rw [h]
  exact ⟨_, _, rfl, rfl⟩

/-- C7 amended witness: creating a capacity-10 event without a
`tickets_sold` field yields a sold count of 0. -/
theorem createEvent_default_sold_zero_witness :
  ∃ db2 ev, createEvent dbEmpty "E" "2025-01-01" (.jInt 10) .missing =
    .ok (db2, ev) ∧ ev.ticketsSold = 0 :=
  createEvent_default_sold_zero dbEmpty "E" "2025-01-01" (.jInt 10) 10 (by rfl)

/-- The event a caller obtains by supplying `total_tickets = -1`. -/
def evNeg : Event :=
  { id := 1, name := "E", date := "2025-01-01", totalTickets := -1, ticketsSold := 0 }

/-- C8 counterexample: `total_tickets` is a plain IntegerField with no
non-negativity validator, so creating an event with `total_tickets = -1`
succeeds instead of failing with InvalidInput. -/
theorem createEvent_accepts_negative_total :
  createEvent dbEmpty "E" "2025-01-01" (.jInt (-1)) .missing =
    .ok ({ dbEmpty with events := [evNeg] }, evNeg) ∧
  evNeg.totalTickets < 0 := by
  refine ⟨by rfl, by decide⟩

/-- C8 amended: when the supplied `total_tickets` is not an integer at all
(non-numeric, null, or absent), creation fails with InvalidInput and no
event is created; negative integers, however, are accepted. -/
theorem createEvent_rejects_noninteger_total (db : DB) (name date : String)
    (totalRaw soldRaw : JsonVal) (msg : String)
    (h : parseIntField totalRaw = .error msg) :
    createEvent db name date totalRaw soldRaw = .error .invalidInput := by
  unfold createEvent
  rw [h]

/-- C8 amended witness: a non-numeric `total_tickets` string is rejected. -/
theorem createEvent_rejects_noninteger_total_witness :
  createEvent dbEmpty "E" "2025-01-01" (.jStr "many") .missing =
    .error .invalidInput :=
  createEvent_rejects_noninteger_total dbEmpty "E" "2025-01-01"
    (.jStr "many") .missing "A valid integer is required." (by rfl)

/-- C9: the role gating is asymmetric — an authenticated User-role account
is denied event creation, an authenticated Admin-role account is denied
ticket purchase, and an unauthenticated caller is denied both. -/
theorem role_gating_asymmetric (u : ReqUser) :
  (u.isAuthenticated = true → u.role = "User" → canCreateEvent u = false) ∧
  (u.isAuthenticated = true → u.role = "Admin" → canPurchase u = false) ∧
  (u.isAuthenticated = false →
    canCreateEvent u = false ∧ canPurchase u = false) := by
  obtain ⟨auth, role⟩ := u
  refine ⟨fun _ h => ?_, fun _ h => ?_, fun h => ?_⟩
  · simp only at h
    subst h
    cases auth <;> decide
  · simp only at h
    subst h
    cases auth <;> decide
  · simp only at h
    subst h
    exact ⟨by simp [canCreateEvent, isAuthenticatedPerm],
           by simp [canPurchase, isAuthenticatedPerm]⟩

/-- C9 witness: the three denials at concrete principals. -/
theorem role_gating_asymmetric_witness :
  canCreateEvent { isAuthenticated := true, role := "User" } = false ∧
  canPurchase { isAuthenticated := true, role := "Admin" } = false ∧
  (canCreateEvent { isAuthenticated := false, role := "User" } = false ∧
   canPurchase { isAuthenticated := false, role := "User" } = false) :=
  ⟨(role_gating_asymmetric { isAuthenticated := true, role := "User" }).1 rfl rfl,
   (role_gating_asymmetric { isAuthenticated := true, role := "Admin" }).2.1 rfl rfl,
   (role_gating_asymmetric { isAuthenticated := false, role := "User" }).2.2 rfl⟩

/-- C10: registration is open to any caller (AllowAny) and copies the
role straight from the request: for any valid role choice the created
account carries it, a request without a role defaults to "User", and a
request with role "Admin" yields an account that passes the
event-creation permission check. -/
theorem register_role_from_request (db : DB) (u : ReqUser) (un r : String)
    (hun : un ≠ "") (hdup : (db.users.any fun x => x.username == un) = false)
    (hr : roleChoices.contains r = true) :
    canRegister u = true ∧
    (∃ db2 usr, registerUser db un (some r) = .ok (db2, usr) ∧ usr.role = r) ∧
    (∃ db3 usr, registerUser db un none = .ok (db3, usr) ∧
      usr.role = "User") ∧
    (∃ db4 usr, registerUser db un (some "Admin") = .ok (db4, usr) ∧
      usr.role = "Admin" ∧
      canCreateEvent { isAuthenticated := true, role := usr.role } = true) := by
  have hcreate : ∀ ro, createUser db un ro =
      .ok ({ db with users := db.users ++
              [{ username := un, role := ro, isActive := true }] },
           { username := un, role := ro, isActive := true }) := by
    intro ro
    unfold createUser
    rw [if_neg hun, hdup]
    simp
  have hsome : registerUser db un (some r) = createUser db un r := by
    simp only [registerUser]
    rw [hr]
    rfl
  refine ⟨rfl, ?_, ?_, ?_⟩
  · rw [hsome, hcreate r]
    exact ⟨_, _, rfl, rfl⟩
  · exact ⟨_, _, hcreate "User", rfl⟩
  · have hadm : registerUser db un (some "Admin") = createUser db un "Admin" := by
      unfold registerUser
      rfl
    have hadmcan : canCreateEvent { isAuthenticated := true, role := "Admin" } = true := by
      decide
    rw [hadm, hcreate "Admin"]
    exact ⟨_, _, rfl, rfl, hadmcan⟩

/-- C10 witness: an unauthenticated caller registers "alice" with role
Admin in an empty store; the account gets role Admin and event-creation
rights, and registering without a role yields role "User". -/
theorem register_role_from_request_witness :
  canRegister { isAuthenticated := false, role := "User" } = true ∧
  (∃ db2 usr, registerUser dbEmpty "alice" (some "Admin") = .ok (db2, usr) ∧
    usr.role = "Admin") ∧
  (∃ db3 usr, registerUser dbEmpty "alice" none = .ok (db3, usr) ∧
    usr.role = "User") ∧
  (∃ db4 usr, registerUser dbEmpty "alice" (some "Admin") = .ok (db4, usr) ∧
    usr.role = "Admin" ∧
    canCreateEvent { isAuthenticated := true, role := usr.role } = true) :=
  register_role_from_request dbEmpty { isAuthenticated := false, role := "User" }
    "alice" "Admin" (by decide) (by rfl) (by decide)

end EventApi
